import Mathlib

/-!
Shallow embedding of the task-management frontend's dual-layer validation
pipeline (server route handlers in `src/main/routes/home.ts`, client form
validation script) together with the view-assembly helpers
(`formatTasksWithDates`, `formatSingleTask`).

Modelling conventions:
* Timestamps are modelled at day granularity (days since the Unix epoch,
  as integers).  Every date value the validators construct is a local
  midnight (`new Date(y, m, d)` with no time component, and `today` has
  `setHours(0,0,0,0)` applied), so comparisons between these values are
  faithfully captured by comparisons of day numbers.
* `new Date(y, m, d)` component normalisation follows the ECMAScript
  `MakeDay` algorithm: the month index is folded into the year with floor
  division, and the day offset is added to the first day of that month.
  Day numbers are converted to and from (year, month, day) triples with
  the standard proleptic-Gregorian civil-date algorithm, using floor
  division throughout (Lean's `Int` `/` and `%` are euclidean, which
  coincides with floor division for the positive divisors used here).
  The ECMAScript range clamp (dates further than ±100,000,000 days from
  the epoch become invalid) is not modelled; both the real code and the
  model classify every date relevant to the claims identically.
* `parseInt` is modelled with radix 10: leading whitespace is skipped, an
  optional sign is read, and the longest leading digit run is the value;
  no digits means `NaN`, modelled as `none`.  A `NaN` component makes the
  constructed `Date` invalid, whose `getDate()` is `NaN`; since `NaN`
  comparisons are always unequal, the round-trip check then fails.  The
  model collapses this into the same branch.
* JavaScript string truthiness: a string is falsy exactly when it is
  empty, so `!s` is modelled as `s = ""`.
-/

namespace TaskFrontend

/-- Value of a list of decimal digit characters. -/
def digitsToNat (cs : List Char) : Nat :=
  cs.foldl (fun acc c => acc * 10 + (c.toNat - '0'.toNat)) 0

/-- Model of JavaScript `parseInt(s)` (radix 10): skip leading whitespace,
read an optional sign, then the longest leading run of decimal digits;
`none` models `NaN`. -/
def parseIntJS (s : String) : Option Int :=
  let cs := s.data.dropWhile (fun c => c.isWhitespace)
  match cs with
  | '-' :: rest =>
      let ds := rest.takeWhile (fun c => c.isDigit)
      if ds.isEmpty then none else some (-(digitsToNat ds : Int))
  | '+' :: rest =>
      let ds := rest.takeWhile (fun c => c.isDigit)
      if ds.isEmpty then none else some ((digitsToNat ds : Int))
  | _ =>
      let ds := cs.takeWhile (fun c => c.isDigit)
      if ds.isEmpty then none else some ((digitsToNat ds : Int))

/-- Model of JavaScript `String.prototype.trim()`: strip whitespace
characters from both ends (defined over the character list so that it
evaluates by kernel reduction). -/
def jsTrim (s : String) : String :=
  ⟨((s.data.dropWhile fun c => c.isWhitespace).reverse.dropWhile fun c => c.isWhitespace).reverse⟩

/-- Gregorian leap-year predicate. -/
def isLeap (y : Int) : Bool :=
  (y % 4 == 0 && y % 100 != 0) || y % 400 == 0

/-- Number of days in month `m` of year `y` (months 1..12). -/
def monthLen (y m : Int) : Int :=
  if m = 2 then (if isLeap y then 29 else 28)
  else if m = 4 ∨ m = 6 ∨ m = 9 ∨ m = 11 then 30
  else 31

/-- Day number (days since 1970-01-01) of the civil date `(y, m, d)`,
for months 1..12; the standard proleptic-Gregorian conversion used by
date libraries and, in effect, by ECMAScript `MakeDay`. -/
def daysFromCivil (y m d : Int) : Int :=
  let y1 := y - (if m ≤ 2 then 1 else 0)
  let era := y1 / 400
  let yoe := y1 - era * 400
  let doy := (153 * (m + (if m > 2 then -3 else 9)) + 2) / 5 + d - 1
  let doe := yoe * 365 + yoe / 4 - yoe / 100 + doy
  era * 146097 + doe - 719468

/-- Year-of-era (0..399) recovered from a day-of-era (0..146096); one
line of the civil-from-days algorithm. -/
def yoeOf (doe : Int) : Int :=
  (doe - doe / 1460 + doe / 36524 - doe / 146096) / 365

/-- Day-of-year (0..365, March-based) of a day-of-era. -/
def doyOf (doe : Int) : Int :=
  doe - (365 * yoeOf doe + yoeOf doe / 4 - yoeOf doe / 100)

/-- March-based month index (0..11) of a day-of-era. -/
def mpOf (doe : Int) : Int := (5 * doyOf doe + 2) / 153

/-- Civil month (1..12) of a day-of-era. -/
def mOf (doe : Int) : Int := mpOf doe + (if mpOf doe < 10 then 3 else -9)

/-- Civil day-of-month (1..31) of a day-of-era. -/
def dOf (doe : Int) : Int := doyOf doe - (153 * mpOf doe + 2) / 5 + 1

/-- Era index (400-year block) of a day number. -/
def eraOfDays (z : Int) : Int := (z + 719468) / 146097

/-- Day-of-era (0..146096) of a day number. -/
def doeOfDays (z : Int) : Int := (z + 719468) - eraOfDays z * 146097

/-- Civil date `(year, month, day)` of a day number, inverse of
`daysFromCivil`; the standard civil-from-days algorithm assembled from
the helpers above. -/
def civilFromDays (z : Int) : Int × Int × Int :=
  (yoeOf (doeOfDays z) + eraOfDays z * 400 + (if mOf (doeOfDays z) ≤ 2 then 1 else 0),
   mOf (doeOfDays z), dOf (doeOfDays z))

/-- Year component of a day number (JavaScript `getFullYear()`). -/
def yearOf (z : Int) : Int := (civilFromDays z).1

/-- Month component, 1-based (JavaScript `getMonth() + 1`). -/
def monthOf (z : Int) : Int := (civilFromDays z).2.1

/-- Day-of-month component (JavaScript `getDate()`). -/
def dayOf (z : Int) : Int := (civilFromDays z).2.2

/-- ECMAScript `Date` constructor year rule: an integer year in 0..99 is
interpreted as 1900 + year. -/
def jsYearAdjust (y : Int) : Int :=
  if 0 ≤ y ∧ y ≤ 99 then y + 1900 else y

/-- Day number produced by `new Date(y, mIdx, d)` (ECMAScript `MakeDay`):
the month index is normalised into the year by floor division, then the
day offset is added to the first of that month. -/
def jsMakeDay (y mIdx d : Int) : Int :=
  let yy := jsYearAdjust y
  daysFromCivil (yy + mIdx / 12) (mIdx % 12 + 1) 1 + (d - 1)

/-- Field-scoped validation error: message text plus the fragment anchor
of the field it belongs to (`{ text, href }` objects in the code). -/
structure FieldError where
  text : String
  href : String
deriving DecidableEq, Repr

/-- Error pushed when the title is empty after trimming. -/
def titleRequiredErr : FieldError := ⟨"Title is required", "#title"⟩

/-- Client-only error pushed when the trimmed title is shorter than 3. -/
def titleMinLenErr : FieldError :=
  ⟨"Title must be at least 3 characters long", "#title"⟩

/-- Error pushed when the description is empty after trimming. -/
def descriptionRequiredErr : FieldError := ⟨"Description is required", "#description"⟩

/-- Client-only error pushed when the trimmed description is shorter than 10. -/
def descriptionMinLenErr : FieldError :=
  ⟨"Description must be at least 10 characters long", "#description"⟩

/-- Error pushed when some but not all due-date fields are provided. -/
def incompleteDateErr : FieldError :=
  ⟨"Please enter a complete due date or leave all fields blank", "#due-date-day"⟩

/-- Error pushed when the due-date fields do not denote a real date. -/
def invalidDateErr : FieldError := ⟨"Please enter a valid due date", "#due-date-day"⟩

/-- Server error pushed when the due date is not strictly in the future. -/
def futureDateErr : FieldError := ⟨"Due date must be in the future", "#due-date-day"⟩

/-- Client error pushed when the due date is strictly in the past. -/
def pastDateErr : FieldError := ⟨"Due date cannot be in the past", "#due-date-day"⟩

/-- Raw submitted form values.  Fields absent from the request body are
modelled as empty strings (both are falsy, and the code only ever tests
them for truthiness before use, so the two are indistinguishable here). -/
structure TaskFormInput where
  title : String
  description : String
  status : String
  dueDateDay : String
  dueDateMonth : String
  dueDateYear : String
deriving DecidableEq, Repr

/-- Normalized write payload sent to the backend on successful validation. -/
structure TaskPayload where
  title : String
  description : String
  status : String
  dueDate : Option Int
deriving DecidableEq, Repr

/-- Server-side due-date validation (`home.ts`, POST `/tasks/create` and
POST `/tasks/:id/edit`, the `if (dueDay || dueMonth || dueYear)` block):
raw field strings are tested for truthiness, the parsed components are
round-tripped through the `Date` constructor, and the result must be
strictly after today's local midnight.  Returns the pushed errors and
the `dueDate` day number (`null` modelled as `none`). -/
def serverDateCheck (dueDay dueMonth dueYear : String) (today : Int) :
    List FieldError × Option Int :=
  if dueDay ≠ "" ∨ dueMonth ≠ "" ∨ dueYear ≠ "" then
    if dueDay = "" ∨ dueMonth = "" ∨ dueYear = "" then
      ([incompleteDateErr], none)
    else
      match parseIntJS dueDay, parseIntJS dueMonth, parseIntJS dueYear with
      | some d, some m, some y =>
          let dateObj := jsMakeDay y (m - 1) d
          if dayOf dateObj ≠ d ∨ monthOf dateObj - 1 ≠ m - 1 then
            ([invalidDateErr], none)
          else if dateObj ≤ today then
            ([futureDateErr], none)
          else ([], some dateObj)
      | _, _, _ => ([invalidDateErr], none)
  else ([], none)

/-- Title errors pushed by the server-side validator. -/
def serverTitleErrors (input : TaskFormInput) : List FieldError :=
  if jsTrim input.title = "" then [titleRequiredErr] else []

/-- Description errors pushed by the server-side validator. -/
def serverDescriptionErrors (input : TaskFormInput) : List FieldError :=
  if jsTrim input.description = "" then [descriptionRequiredErr] else []

/-- Server-side validation of POST `/tasks/create` (`home.ts` lines
173-218): sequential error accumulation over title, description and due
date, then the normalized payload when no error was pushed.  `status ||
'TODO'` defaults an absent/empty status on the create path. -/
def serverValidateCreate (input : TaskFormInput) (today : Int) :
    List FieldError × Option TaskPayload :=
  let errors : List FieldError := []
  let errors := if jsTrim input.title = "" then errors ++ [titleRequiredErr] else errors
  let errors := if jsTrim input.description = "" then errors ++ [descriptionRequiredErr] else errors
  let dc := serverDateCheck input.dueDateDay input.dueDateMonth input.dueDateYear today
  let errors := errors ++ dc.1
  if errors = [] then
    ([], some ⟨jsTrim input.title, jsTrim input.description,
      (if input.status = "" then "TODO" else input.status), dc.2⟩)
  else (errors, none)

/-- Server-side validation of POST `/tasks/:id/edit` (`home.ts` lines
279-327): identical accumulation, but the status is forwarded as
submitted (no default). -/
def serverValidateEdit (input : TaskFormInput) (today : Int) :
    List FieldError × Option TaskPayload :=
  let errors : List FieldError := []
  let errors := if jsTrim input.title = "" then errors ++ [titleRequiredErr] else errors
  let errors := if jsTrim input.description = "" then errors ++ [descriptionRequiredErr] else errors
  let dc := serverDateCheck input.dueDateDay input.dueDateMonth input.dueDateYear today
  let errors := errors ++ dc.1
  if errors = [] then
    ([], some ⟨jsTrim input.title, jsTrim input.description, input.status, dc.2⟩)
  else (errors, none)

/-- Client-side due-date validation (form script, the
`if (dayInput && monthInput && yearInput)` block): each field value is
trimmed first, explicit `NaN`/range checks (day 1..31, month 1..12, year
≥ 2020) precede the round-trip check, and the past check is strict
(`dateObj < today` is rejected, today itself is accepted). -/
def clientDateCheck (dayRaw monthRaw yearRaw : String) (today : Int) :
    List FieldError :=
  let day := jsTrim dayRaw
  let month := jsTrim monthRaw
  let year := jsTrim yearRaw
  if day ≠ "" ∨ month ≠ "" ∨ year ≠ "" then
    if day = "" ∨ month = "" ∨ year = "" then [incompleteDateErr]
    else
      match parseIntJS day, parseIntJS month, parseIntJS year with
      | some dayNum, some monthNum, some yearNum =>
          if dayNum < 1 ∨ dayNum > 31 ∨ monthNum < 1 ∨ monthNum > 12 ∨ yearNum < 2020 then
            [invalidDateErr]
          else
            let dateObj := jsMakeDay yearNum (monthNum - 1) dayNum
            if dayOf dateObj ≠ dayNum ∨ monthOf dateObj - 1 ≠ monthNum - 1 then
              [invalidDateErr]
            else if dateObj < today then [pastDateErr]
            else []
      | _, _, _ => [invalidDateErr]
  else []

/-- Client-side validation of the task form (form script): trimmed title
with a required check and a minimum length of 3, trimmed description
with a required check and a minimum length of 10, then the due-date
check; errors are pushed in that order. -/
def clientValidate (input : TaskFormInput) (today : Int) : List FieldError :=
  let title := jsTrim input.title
  let titleErrs :=
    if title = "" then [titleRequiredErr]
    else if title.length < 3 then [titleMinLenErr]
    else []
  let description := jsTrim input.description
  let descErrs :=
    if description = "" then [descriptionRequiredErr]
    else if description.length < 10 then [descriptionMinLenErr]
    else []
  titleErrs ++ descErrs ++
    clientDateCheck input.dueDateDay input.dueDateMonth input.dueDateYear today

/-- Day number of the first day of year-of-era `w` counted from the era
start (proof helper: the year-dependent part of `daysFromCivil`). -/
def gEra (w : Int) : Int :=
  w / 400 * 146097 + (w - w / 400 * 400) * 365 +
    (w - w / 400 * 400) / 4 - (w - w / 400 * 400) / 100

/-- Boolean check, for one year, that February 30, February 31 and
April 31 all roll over into the following month (proof helper for the
year-periodic finite verification). -/
def rolloverCheck (y : Int) : Bool :=
  (monthOf (daysFromCivil y 2 1 + 29) == 3) &&
  (monthOf (daysFromCivil y 2 1 + 30) == 3) &&
  (monthOf (daysFromCivil y 4 1 + 30) == 5)

/-- Model of JavaScript `s.padStart(2, '0')` for the strings it is
applied to here (decimal renderings of day/month numbers). -/
def padStart2 (s : String) : String :=
  if s.length ≥ 2 then s
  else if s.length = 1 then "0" ++ s
  else "00"

/-- Task record as fetched from the backend API, restricted to the
fields the view-assembly computations read.  `dueDate` is the stored
timestamp (day number; the code stores `toISOString()` of a local
midnight and re-parses it, which preserves the instant).  The
display-only locale-formatted strings and the created/updated
timestamps are not modelled. -/
structure Task where
  title : String
  description : String
  status : String
  dueDate : Option Int
deriving DecidableEq, Repr

/-- Display record assembled by `formatSingleTask`. -/
structure AssembledTask where
  title : String
  description : String
  status : String
  dueDate : Option Int
  isOverdue : Bool
  dueDateDay : String
  dueDateMonth : String
  dueDateYear : String
deriving DecidableEq, Repr

/-- Display record assembled per element by `formatTasksWithDates`. -/
structure AssembledListItem where
  title : String
  description : String
  status : String
  dueDate : Option Int
  isOverdue : Bool
deriving DecidableEq, Repr

/-- Model of `formatSingleTask` (`home.ts` lines 25-59): preserves the
task's fields and adds the overdue flag (`dueDate < now && status !==
'COMPLETED'`) and the zero-padded day/month plus plain year extracted
from `dueDate` for re-populating the edit form. -/
def formatSingleTask (task : Task) (now : Int) : AssembledTask :=
  { title := task.title
    description := task.description
    status := task.status
    dueDate := task.dueDate
    isOverdue :=
      match task.dueDate with
      | some t => decide (t < now) && decide (task.status ≠ "COMPLETED")
      | none => false
    dueDateDay :=
      match task.dueDate with
      | some t => padStart2 (toString (dayOf t))
      | none => ""
    dueDateMonth :=
      match task.dueDate with
      | some t => padStart2 (toString (monthOf t))
      | none => ""
    dueDateYear :=
      match task.dueDate with
      | some t => toString (yearOf t)
      | none => "" }

/-- Model of `formatTasksWithDates` (`home.ts` lines 9-22): maps each
task to its fields plus the same overdue flag (no date-part extraction
in the list variant). -/
def formatTasksWithDates (tasks : List Task) (now : Int) : List AssembledListItem :=
  tasks.map fun task =>
    { title := task.title
      description := task.description
      status := task.status
      dueDate := task.dueDate
      isOverdue :=
        match task.dueDate with
        | some t => decide (t < now) && decide (task.status ≠ "COMPLETED")
        | none => false }

/-- Outcome of one backend HTTP call as observed by a handler: the
resolved value, or a thrown error. -/
inductive UpstreamResult (α : Type) where
  | ok : α → UpstreamResult α
  | err : UpstreamResult α
deriving DecidableEq

/-- Data bag passed to the rendering engine, restricted to the keys the
claims are about. -/
structure RenderBag where
  errors : List FieldError := []
  formData : Option TaskFormInput := none
  errorMsg : Option String := none
  task : Option Task := none
deriving DecidableEq

/-- Response of a route handler: render a view with a data bag, or
redirect. -/
inductive HandlerResponse where
  | render : String → RenderBag → HandlerResponse
  | redirect : String → HandlerResponse
deriving DecidableEq

/-- Model of the POST `/tasks/create` handler (`home.ts` lines 166-229):
validation errors re-render the form with the errors and the submitted
body as `formData`; otherwise the task is posted, redirecting on
success; a thrown backend error lands in the catch, which re-renders
the form with a generic message and the submitted body. -/
def createTaskHandler (input : TaskFormInput) (today : Int)
    (postOutcome : UpstreamResult Unit) : HandlerResponse :=
  let v := serverValidateCreate input today
  if v.1 ≠ [] then
    .render "tasks/create" { errors := v.1, formData := some input }
  else
    match postOutcome with
    | .ok _ => .redirect "/"
    | .err => .render "tasks/create"
        { errorMsg := some "Failed to create task. Please try again.",
          formData := some input }

/-- Model of the POST `/tasks/:id/edit` handler (`home.ts` lines
272-346): on validation errors the task is re-fetched to re-render the
edit form; if that re-fetch throws, control reaches the catch block,
which re-fetches again and falls back to the generic error view if that
also throws.  A failed PUT likewise lands in the catch.  The two
re-fetch parameters are the outcomes of the fetch inside the try block
and the fetch inside the catch block. -/
def editTaskHandler (id : String) (input : TaskFormInput) (today : Int)
    (refetchInTry : UpstreamResult Task) (putOutcome : UpstreamResult Unit)
    (refetchInCatch : UpstreamResult Task) : HandlerResponse :=
  let v := serverValidateEdit input today
  if v.1 ≠ [] then
    match refetchInTry with
    | .ok t => .render "tasks/edit"
        { task := some t, errors := v.1, formData := some input }
    | .err =>
      match refetchInCatch with
      | .ok t => .render "tasks/edit"
          { task := some t,
            errorMsg := some "Failed to update task. Please try again.",
            formData := some input }
      | .err => .render "error" { errorMsg := some "Failed to update task" }
  else
    match putOutcome with
    | .ok _ => .redirect (String.append "/tasks/" id)
    | .err =>
      match refetchInCatch with
      | .ok t => .render "tasks/edit"
          { task := some t,
            errorMsg := some "Failed to update task. Please try again.",
            formData := some input }
      | .err => .render "error" { errorMsg := some "Failed to update task" }

end TaskFrontend

namespace TaskFrontend

/-! Calendar correctness lemmas: component ranges, the round-trip
between day numbers and civil dates, injectivity in the year, and
400-year periodicity. -/

theorem doeOfDays_bounds (z : Int) : 0 ≤ doeOfDays z ∧ doeOfDays z ≤ 146096 := by
  unfold doeOfDays eraOfDays; constructor <;> omega

theorem yoeOf_bounds (doe : Int) (h0 : 0 ≤ doe) (h1 : doe ≤ 146096) :
    0 ≤ yoeOf doe ∧ yoeOf doe ≤ 399 := by
  unfold yoeOf; constructor <;> omega

theorem yoe_cut1 (doe : Int) (h0 : 0 ≤ doe) (h1 : doe ≤ 146096) :
    yoeOf doe / 4 ≤ doe / 1460 ∧ doe / 1460 ≤ yoeOf doe / 4 + 1 := by
  unfold yoeOf; constructor <;> omega

theorem yoe_cut2 (doe : Int) (h0 : 0 ≤ doe) (h1 : doe ≤ 146096) :
    yoeOf doe / 100 ≤ doe / 36524 ∧ doe / 36524 ≤ yoeOf doe / 100 + 1 := by
  unfold yoeOf; constructor <;> omega

theorem doyOf_bounds (doe : Int) (h0 : 0 ≤ doe) (h1 : doe ≤ 146096) :
    0 ≤ doyOf doe ∧ doyOf doe ≤ 365 := by
  have c1 := yoe_cut1 doe h0 h1
  have c2 := yoe_cut2 doe h0 h1
  unfold doyOf at *
  unfold yoeOf at *
  constructor <;> omega

theorem mpOf_bounds (doe : Int) (h0 : 0 ≤ doe) (h1 : doe ≤ 146096) :
    0 ≤ mpOf doe ∧ mpOf doe ≤ 11 := by
  have hd := doyOf_bounds doe h0 h1
  unfold mpOf; constructor <;> omega

theorem monthOf_bounds (z : Int) : 1 ≤ monthOf z ∧ monthOf z ≤ 12 := by
  obtain ⟨h0, h1⟩ := doeOfDays_bounds z
  obtain ⟨hm0, hm1⟩ := mpOf_bounds _ h0 h1
  unfold monthOf civilFromDays mOf
  dsimp only
  by_cases h : mpOf (doeOfDays z) < 10
  · simp only [if_pos h]; omega
  · simp only [if_neg h]; omega

theorem dayOf_bounds (z : Int) : 1 ≤ dayOf z ∧ dayOf z ≤ 31 := by
  obtain ⟨h0, h1⟩ := doeOfDays_bounds z
  obtain ⟨hd0, hd1⟩ := doyOf_bounds _ h0 h1
  unfold dayOf civilFromDays dOf mpOf
  dsimp only
  constructor <;> omega

theorem roundtrip_core (era yoe doy mp m d y : Int)
    (hyoe0 : 0 ≤ yoe) (hyoe1 : yoe ≤ 399)
    (hmp0 : 0 ≤ mp) (hmp1 : mp ≤ 11)
    (hmp : mp = (5 * doy + 2) / 153)
    (hd : d = doy - (153 * mp + 2) / 5 + 1)
    (hm : m = mp + (if mp < 10 then 3 else -9))
    (hy : y = yoe + era * 400 + (if m ≤ 2 then 1 else 0)) :
    daysFromCivil y m d = era * 146097 + (yoe * 365 + yoe / 4 - yoe / 100 + doy) - 719468 := by
  unfold daysFromCivil
  dsimp only
  by_cases h10 : mp < 10
  · have hm3 : m = mp + 3 := by rw [hm, if_pos h10]
    subst hm3
    rw [if_neg (by omega : ¬(mp + 3 ≤ 2)), if_pos (by omega : mp + 3 > 2)] at *
    omega
  · have hm3 : m = mp - 9 := by rw [hm, if_neg h10]; ring
    subst hm3
    rw [if_pos (by omega : mp - 9 ≤ 2), if_neg (by omega : ¬(mp - 9 > 2))] at *
    omega

theorem daysFromCivil_civilFromDays (z : Int) :
    daysFromCivil (yearOf z) (monthOf z) (dayOf z) = z := by
  obtain ⟨h0, h1⟩ := doeOfDays_bounds z
  obtain ⟨hy0, hy1⟩ := yoeOf_bounds _ h0 h1
  obtain ⟨hm0, hm1⟩ := mpOf_bounds _ h0 h1
  have core := roundtrip_core (eraOfDays z) (yoeOf (doeOfDays z)) (doyOf (doeOfDays z))
    (mpOf (doeOfDays z)) (mOf (doeOfDays z)) (dOf (doeOfDays z)) (yearOf z)
    hy0 hy1 hm0 hm1 rfl rfl rfl rfl
  show daysFromCivil (yearOf z) (mOf (doeOfDays z)) (dOf (doeOfDays z)) = z
  rw [core]
  have hrec : yoeOf (doeOfDays z) * 365 + yoeOf (doeOfDays z) / 4 -
      yoeOf (doeOfDays z) / 100 + doyOf (doeOfDays z) = doeOfDays z := by
    unfold doyOf; ring
  rw [hrec]
  unfold doeOfDays eraOfDays
  ring

theorem gEra_lt_succ (w : Int) : gEra w < gEra (w + 1) := by
  unfold gEra; omega

theorem gEra_strictMono : StrictMono gEra :=
  strictMono_int_of_lt_succ gEra_lt_succ

theorem daysFromCivil_eq_gEra (y m d : Int) :
    daysFromCivil y m d =
      gEra (y - (if m ≤ 2 then 1 else 0)) +
        ((153 * (m + (if m > 2 then -3 else 9)) + 2) / 5 + d - 1) - 719468 := by
  unfold daysFromCivil gEra
  dsimp only
  by_cases h : m ≤ 2
  · simp only [if_pos h, if_neg (show ¬(m > 2) by omega)]
    ring
  · simp only [if_neg h, if_pos (show m > 2 by omega)]
    ring

theorem daysFromCivil_year_inj (y1 y2 m d : Int)
    (h : daysFromCivil y1 m d = daysFromCivil y2 m d) : y1 = y2 := by
  rw [daysFromCivil_eq_gEra, daysFromCivil_eq_gEra] at h
  have h2 : gEra (y1 - (if m ≤ 2 then 1 else 0)) = gEra (y2 - (if m ≤ 2 then 1 else 0)) := by
    omega
  have := gEra_strictMono.injective h2
  omega

theorem daysFromCivil_add400 (y m d q : Int) :
    daysFromCivil (y + 400 * q) m d = daysFromCivil y m d + 146097 * q := by
  unfold daysFromCivil
  dsimp only
  by_cases h : m ≤ 2
  · simp only [if_pos h, if_neg (show ¬(m > 2) by omega)]
    omega
  · simp only [if_neg h, if_pos (show m > 2 by omega)]
    omega

theorem civilFromDays_add146097 (z q : Int) :
    yearOf (z + 146097 * q) = yearOf z + 400 * q ∧
      monthOf (z + 146097 * q) = monthOf z ∧ dayOf (z + 146097 * q) = dayOf z := by
  have h1 : doeOfDays (z + 146097 * q) = doeOfDays z := by
    unfold doeOfDays eraOfDays; omega
  have h2 : eraOfDays (z + 146097 * q) = eraOfDays z + q := by
    unfold eraOfDays; omega
  unfold yearOf monthOf dayOf civilFromDays
  rw [h1, h2]
  refine ⟨by ring, rfl, rfl⟩

set_option maxRecDepth 100000 in
theorem rolloverCheck_range :
    ((List.range 400).all fun r => rolloverCheck (r : Int)) = true := by
  decide

theorem daysFromCivil_day_linear (y m d : Int) :
    daysFromCivil y m d = daysFromCivil y m 1 + (d - 1) := by
  rw [daysFromCivil_eq_gEra, daysFromCivil_eq_gEra]
  ring

theorem jsMakeDay_eq (y m d : Int) (hm1 : 1 ≤ m) (hm2 : m ≤ 12) :
    jsMakeDay y (m - 1) d = daysFromCivil (jsYearAdjust y) m d := by
  unfold jsMakeDay
  dsimp only
  have h1 : (m - 1) / 12 = 0 := by omega
  have h2 : (m - 1) % 12 = m - 1 := by omega
  simp only [h1, h2, add_zero]
  have h3 : m - 1 + 1 = m := by ring
  rw [h3, daysFromCivil_day_linear (jsYearAdjust y) m d]

theorem jsMakeDay_roundtrip_year (y m d : Int) (hy : ¬(0 ≤ y ∧ y ≤ 99))
    (hd : dayOf (jsMakeDay y (m - 1) d) = d)
    (hm : monthOf (jsMakeDay y (m - 1) d) - 1 = m - 1) :
    jsMakeDay y (m - 1) d = daysFromCivil y m d ∧ yearOf (jsMakeDay y (m - 1) d) = y := by
  have hadj : jsYearAdjust y = y := by unfold jsYearAdjust; rw [if_neg hy]
  obtain ⟨hb1, hb2⟩ := monthOf_bounds (jsMakeDay y (m - 1) d)
  have hmeq : monthOf (jsMakeDay y (m - 1) d) = m := by
    generalize hM : monthOf (jsMakeDay y (m - 1) d) = M at hm hb1 hb2
    omega
  have hm1 : 1 ≤ m := hmeq ▸ hb1
  have hm2 : m ≤ 12 := hmeq ▸ hb2
  have heq : jsMakeDay y (m - 1) d = daysFromCivil y m d := by
    rw [jsMakeDay_eq y m d hm1 hm2, hadj]
  refine ⟨heq, ?_⟩
  rw [heq] at hmeq hd ⊢
  have hrt := daysFromCivil_civilFromDays (daysFromCivil y m d)
  rw [hmeq, hd] at hrt
  exact daysFromCivil_year_inj _ _ _ _ hrt

end TaskFrontend

namespace TaskFrontend

theorem parseIntJS_ne_empty {s : String} {v : Int} (h : parseIntJS s = some v) : s ≠ "" := by
  intro he
  subst he
  rw [show parseIntJS "" = none from rfl] at h
  exact Option.noConfusion h

theorem jsTrim_empty : jsTrim "" = "" := rfl

theorem serverValidateCreate_errors (input : TaskFormInput) (today : Int) :
    (serverValidateCreate input today).1 =
      serverTitleErrors input ++ serverDescriptionErrors input ++
        (serverDateCheck input.dueDateDay input.dueDateMonth input.dueDateYear today).1 := by
  unfold serverValidateCreate serverTitleErrors serverDescriptionErrors
  dsimp only
  split_ifs <;> simp_all

theorem serverValidateEdit_errors (input : TaskFormInput) (today : Int) :
    (serverValidateEdit input today).1 =
      serverTitleErrors input ++ serverDescriptionErrors input ++
        (serverDateCheck input.dueDateDay input.dueDateMonth input.dueDateYear today).1 := by
  unfold serverValidateEdit serverTitleErrors serverDescriptionErrors
  dsimp only
  split_ifs <;> simp_all

theorem serverDateCheck_cases (dday dmonth dyear : String) (today : Int) :
    (serverDateCheck dday dmonth dyear today).1 = [] ∨
    (serverDateCheck dday dmonth dyear today).1 = [incompleteDateErr] ∨
    (serverDateCheck dday dmonth dyear today).1 = [invalidDateErr] ∨
    (serverDateCheck dday dmonth dyear today).1 = [futureDateErr] := by
  unfold serverDateCheck
  split_ifs with h1 h2
  · tauto
  · rcases parseIntJS dday with _ | d <;> rcases parseIntJS dmonth with _ | m <;>
      rcases parseIntJS dyear with _ | y <;> dsimp only <;> try tauto
    split_ifs <;> tauto
  · tauto

theorem clientDateCheck_cases (dday dmonth dyear : String) (today : Int) :
    clientDateCheck dday dmonth dyear today = [] ∨
    clientDateCheck dday dmonth dyear today = [incompleteDateErr] ∨
    clientDateCheck dday dmonth dyear today = [invalidDateErr] ∨
    clientDateCheck dday dmonth dyear today = [pastDateErr] := by
  unfold clientDateCheck
  dsimp only
  split_ifs with h1 h2
  · tauto
  · rcases parseIntJS (jsTrim dday) with _ | d <;> rcases parseIntJS (jsTrim dmonth) with _ | m <;>
      rcases parseIntJS (jsTrim dyear) with _ | y <;> dsimp only <;> try tauto
    split_ifs <;> tauto
  · tauto

/-- Claim C3: for every (day, month, year) triple of submitted strings
where at least one but not all three are empty — emptiness as the
respective validator tests it: raw truthiness on the server, after
trimming on the client — due-date validation yields exactly the
incomplete-date error "Please enter a complete due date or leave all
fields blank", anchored to the day field, regardless of which fields
are empty. -/
theorem c3_incomplete_date (dday dmonth dyear : String) (today : Int) :
    ((dday = "" ∨ dmonth = "" ∨ dyear = "") →
      (dday ≠ "" ∨ dmonth ≠ "" ∨ dyear ≠ "") →
      (serverDateCheck dday dmonth dyear today).1 = [incompleteDateErr]) ∧
    ((jsTrim dday = "" ∨ jsTrim dmonth = "" ∨ jsTrim dyear = "") →
      (jsTrim dday ≠ "" ∨ jsTrim dmonth ≠ "" ∨ jsTrim dyear ≠ "") →
      clientDateCheck dday dmonth dyear today = [incompleteDateErr]) ∧
    incompleteDateErr.href = "#due-date-day" := by
  refine ⟨fun h1 h2 => ?_, fun h1 h2 => ?_, rfl⟩
  · unfold serverDateCheck
    rw [if_pos h2, if_pos h1]
  · unfold clientDateCheck
    dsimp only
    rw [if_pos h2, if_pos h1]

/-- Witness for C3 at the concrete input day="15", month="", year="". -/
theorem c3_witness :
    (serverDateCheck "15" "" "" 0).1 = [incompleteDateErr] ∧
    clientDateCheck "15" "" "" 0 = [incompleteDateErr] :=
  ⟨(c3_incomplete_date "15" "" "" 0).1 (by tauto) (by left; decide),
   (c3_incomplete_date "15" "" "" 0).2.1 (by right; left; rfl) (by left; decide)⟩

/-- Claim C10: for a submission where one due-date field is a
whitespace-only string and the other two are empty, the server (which
tests the raw strings for truthiness) classifies the date as incomplete
with "Please enter a complete due date or leave all fields blank",
whereas the client (which trims each field first) treats the same
submission as an absent date and emits no error, whichever of the three
fields carries the whitespace. -/
theorem c10_whitespace_divergence (s : String) (today : Int)
    (h1 : s ≠ "") (h2 : jsTrim s = "") :
    (serverDateCheck s "" "" today).1 = [incompleteDateErr] ∧
    (serverDateCheck "" s "" today).1 = [incompleteDateErr] ∧
    (serverDateCheck "" "" s today).1 = [incompleteDateErr] ∧
    clientDateCheck s "" "" today = [] ∧
    clientDateCheck "" s "" today = [] ∧
    clientDateCheck "" "" s today = [] := by
  refine ⟨?_, ?_, ?_, ?_, ?_, ?_⟩ <;>
    first
    | (unfold serverDateCheck
       rw [if_pos (by tauto), if_pos (by tauto)])
    | (unfold clientDateCheck
       dsimp only
       rw [if_neg (by simp [h2, jsTrim_empty])])

/-- Witness for C10 at the concrete whitespace-only string " ". -/
theorem c10_witness :
    (serverDateCheck " " "" "" 0).1 = [incompleteDateErr] ∧
    (serverDateCheck "" " " "" 0).1 = [incompleteDateErr] ∧
    (serverDateCheck "" "" " " 0).1 = [incompleteDateErr] ∧
    clientDateCheck " " "" "" 0 = [] ∧
    clientDateCheck "" " " "" 0 = [] ∧
    clientDateCheck "" "" " " 0 = [] :=
  c10_whitespace_divergence " " 0 (by decide) (by decide)

end TaskFrontend

namespace TaskFrontend

/-- Claim C6: server-side validation (on the create path and on the edit
path alike) returns in one pass the concatenation of the title errors,
the description errors and the due-date errors, in that order — so the
full error list for all failing fields is produced, ordered
title → description → due date, with no short-circuiting across
fields. -/
theorem c6_error_order (input : TaskFormInput) (today : Int) :
    (serverValidateCreate input today).1 =
      serverTitleErrors input ++ serverDescriptionErrors input ++
        (serverDateCheck input.dueDateDay input.dueDateMonth input.dueDateYear today).1 ∧
    (serverValidateEdit input today).1 =
      serverTitleErrors input ++ serverDescriptionErrors input ++
        (serverDateCheck input.dueDateDay input.dueDateMonth input.dueDateYear today).1 :=
  ⟨serverValidateCreate_errors input today, serverValidateEdit_errors input today⟩

/-- Claim C7: the assembled display record's overdue flag is true exactly
when the task has a due date that lies before the current instant and
the status is not COMPLETED; the list assembler computes the same flag
per element, and in particular a CANCELLED task with a past due date is
flagged overdue. -/
theorem c7_overdue_flag :
    (∀ (task : Task) (now : Int),
      (formatSingleTask task now).isOverdue = true ↔
        ∃ t, task.dueDate = some t ∧ t < now ∧ task.status ≠ "COMPLETED") ∧
    (∀ (tasks : List Task) (now : Int),
      formatTasksWithDates tasks now = tasks.map fun task =>
        ⟨task.title, task.description, task.status, task.dueDate,
          (formatSingleTask task now).isOverdue⟩) ∧
    (∀ (title descr : String) (t now : Int),
      (formatSingleTask ⟨title, descr, "CANCELLED", some t⟩ now).isOverdue = decide (t < now)) := by
  refine ⟨?_, ?_, ?_⟩
  · intro task now
    unfold formatSingleTask
    cases h : task.dueDate with
    | none => simp [h]
    | some t => simp [h]
  · intro tasks now
    rfl
  · intro title descr t now
    unfold formatSingleTask
    simp

end TaskFrontend

namespace TaskFrontend

theorem mem_serverTitleErrors (input : TaskFormInput) :
    titleRequiredErr ∈ serverTitleErrors input ↔ jsTrim input.title = "" := by
  unfold serverTitleErrors
  split_ifs with h <;> simp [h]

theorem mem_serverDescriptionErrors (input : TaskFormInput) :
    descriptionRequiredErr ∈ serverDescriptionErrors input ↔ jsTrim input.description = "" := by
  unfold serverDescriptionErrors
  split_ifs with h <;> simp [h]

theorem titleReq_notin_serverDescription (input : TaskFormInput) :
    titleRequiredErr ∉ serverDescriptionErrors input := by
  unfold serverDescriptionErrors
  split_ifs <;> decide

theorem descReq_notin_serverTitle (input : TaskFormInput) :
    descriptionRequiredErr ∉ serverTitleErrors input := by
  unfold serverTitleErrors
  split_ifs <;> decide

theorem titleReq_notin_serverDate (dday dmonth dyear : String) (today : Int) :
    titleRequiredErr ∉ (serverDateCheck dday dmonth dyear today).1 := by
  rcases serverDateCheck_cases dday dmonth dyear today with h | h | h | h <;> rw [h] <;> decide

theorem descReq_notin_serverDate (dday dmonth dyear : String) (today : Int) :
    descriptionRequiredErr ∉ (serverDateCheck dday dmonth dyear today).1 := by
  rcases serverDateCheck_cases dday dmonth dyear today with h | h | h | h <;> rw [h] <;> decide

theorem titleReq_notin_clientDate (dday dmonth dyear : String) (today : Int) :
    titleRequiredErr ∉ clientDateCheck dday dmonth dyear today := by
  rcases clientDateCheck_cases dday dmonth dyear today with h | h | h | h <;> rw [h] <;> decide

theorem descReq_notin_clientDate (dday dmonth dyear : String) (today : Int) :
    descriptionRequiredErr ∉ clientDateCheck dday dmonth dyear today := by
  rcases clientDateCheck_cases dday dmonth dyear today with h | h | h | h <;> rw [h] <;> decide

theorem titleReq_mem_server (input : TaskFormInput) (today : Int) :
    titleRequiredErr ∈ (serverValidateCreate input today).1 ↔ jsTrim input.title = "" := by
  rw [serverValidateCreate_errors]
  simp only [List.mem_append]
  have h1 := mem_serverTitleErrors input
  have h2 := titleReq_notin_serverDescription input
  have h3 := titleReq_notin_serverDate input.dueDateDay input.dueDateMonth input.dueDateYear today
  tauto

theorem descReq_mem_server (input : TaskFormInput) (today : Int) :
    descriptionRequiredErr ∈ (serverValidateCreate input today).1 ↔ jsTrim input.description = "" := by
  rw [serverValidateCreate_errors]
  simp only [List.mem_append]
  have h1 := mem_serverDescriptionErrors input
  have h2 := descReq_notin_serverTitle input
  have h3 := descReq_notin_serverDate input.dueDateDay input.dueDateMonth input.dueDateYear today
  tauto

theorem titleReq_mem_client (input : TaskFormInput) (today : Int) :
    titleRequiredErr ∈ clientValidate input today ↔ jsTrim input.title = "" := by
  unfold clientValidate
  dsimp only
  simp only [List.mem_append]
  have h3 := titleReq_notin_clientDate input.dueDateDay input.dueDateMonth input.dueDateYear today
  have h1 : titleRequiredErr ∈
      (if jsTrim input.title = "" then [titleRequiredErr]
       else if (jsTrim input.title).length < 3 then [titleMinLenErr] else []) ↔
      jsTrim input.title = "" := by
    split_ifs with ha hb <;> (simp [ha]; try decide)
  have h2 : titleRequiredErr ∉
      (if jsTrim input.description = "" then [descriptionRequiredErr]
       else if (jsTrim input.description).length < 10 then [descriptionMinLenErr] else []) := by
    split_ifs <;> decide
  tauto

theorem descReq_mem_client (input : TaskFormInput) (today : Int) :
    descriptionRequiredErr ∈ clientValidate input today ↔ jsTrim input.description = "" := by
  unfold clientValidate
  dsimp only
  simp only [List.mem_append]
  have h3 := descReq_notin_clientDate input.dueDateDay input.dueDateMonth input.dueDateYear today
  have h1 : descriptionRequiredErr ∈
      (if jsTrim input.description = "" then [descriptionRequiredErr]
       else if (jsTrim input.description).length < 10 then [descriptionMinLenErr] else []) ↔
      jsTrim input.description = "" := by
    split_ifs with ha hb <;> (simp [ha]; try decide)
  have h2 : descriptionRequiredErr ∉
      (if jsTrim input.title = "" then [titleRequiredErr]
       else if (jsTrim input.title).length < 3 then [titleMinLenErr] else []) := by
    split_ifs <;> decide
  tauto

/-- Counterexample to C1 as stated: the two validators are not
semantically identical.  On the input with title "ab" (length 2 after
trimming), a valid description and no due date, the server-side
validator accepts while the client-side validator rejects with its
additional minimum-length rule. -/
theorem c1_counterexample :
    (serverValidateCreate ⟨"ab", "Valid description!", "", "", "", ""⟩ 0).1 = [] ∧
    clientValidate ⟨"ab", "Valid description!", "", "", "", ""⟩ 0 = [titleMinLenErr] := by
  constructor <;> decide

/-- Claim C1 (amended): the client-side and the server-side validator
agree on the emptiness checks — for every input, the server emits
"Title is required" exactly when the client does, and likewise
"Description is required" — but they are not semantically identical
beyond that shared contract (the client adds minimum-length rules, a
year lower bound, field trimming, and a strict rather than non-strict
past-date comparison with different wording). -/
theorem c1_emptiness_agreement (input : TaskFormInput) (today : Int) :
    (titleRequiredErr ∈ (serverValidateCreate input today).1 ↔
      titleRequiredErr ∈ clientValidate input today) ∧
    (descriptionRequiredErr ∈ (serverValidateCreate input today).1 ↔
      descriptionRequiredErr ∈ clientValidate input today) :=
  ⟨(titleReq_mem_server input today).trans (titleReq_mem_client input today).symm,
   (descReq_mem_server input today).trans (descReq_mem_client input today).symm⟩

end TaskFrontend

namespace TaskFrontend

theorem jsMakeDay_of_civil (w y m d : Int)
    (hy : yearOf w = y) (hm : monthOf w = m) (hd : dayOf w = d) (hyb : 100 ≤ y) :
    jsMakeDay y (m - 1) d = w := by
  obtain ⟨hb1, hb2⟩ := monthOf_bounds w
  rw [hm] at hb1 hb2
  have hadj : jsYearAdjust y = y := by
    unfold jsYearAdjust
    rw [if_neg (by omega)]
  rw [jsMakeDay_eq y m d hb1 hb2, hadj]
  have hrt := daysFromCivil_civilFromDays w
  rw [hy, hm, hd] at hrt
  exact hrt

theorem serverDateCheck_eval (ds ms ys : String) (today d m y : Int)
    (hpd : parseIntJS ds = some d) (hpm : parseIntJS ms = some m) (hpy : parseIntJS ys = some y)
    (hrt1 : dayOf (jsMakeDay y (m - 1) d) = d)
    (hrt2 : monthOf (jsMakeDay y (m - 1) d) - 1 = m - 1) :
    serverDateCheck ds ms ys today =
      if jsMakeDay y (m - 1) d ≤ today then ([futureDateErr], none)
      else ([], some (jsMakeDay y (m - 1) d)) := by
  have h1 := parseIntJS_ne_empty hpd
  have h2 := parseIntJS_ne_empty hpm
  have h3 := parseIntJS_ne_empty hpy
  unfold serverDateCheck
  rw [if_pos (Or.inl h1), if_neg (show ¬(ds = "" ∨ ms = "" ∨ ys = "") by tauto),
    hpd, hpm, hpy]
  dsimp only
  rw [if_neg (show ¬(dayOf (jsMakeDay y (m - 1) d) ≠ d ∨
    monthOf (jsMakeDay y (m - 1) d) - 1 ≠ m - 1) by tauto)]

theorem clientDateCheck_eval (ds ms ys : String) (today d m y : Int)
    (hpd : parseIntJS (jsTrim ds) = some d) (hpm : parseIntJS (jsTrim ms) = some m)
    (hpy : parseIntJS (jsTrim ys) = some y)
    (hr : ¬(d < 1 ∨ d > 31 ∨ m < 1 ∨ m > 12 ∨ y < 2020))
    (hrt1 : dayOf (jsMakeDay y (m - 1) d) = d)
    (hrt2 : monthOf (jsMakeDay y (m - 1) d) - 1 = m - 1) :
    clientDateCheck ds ms ys today =
      if jsMakeDay y (m - 1) d < today then [pastDateErr] else [] := by
  have h1 := parseIntJS_ne_empty hpd
  have h2 := parseIntJS_ne_empty hpm
  have h3 := parseIntJS_ne_empty hpy
  unfold clientDateCheck
  dsimp only
  rw [if_pos (Or.inl h1),
    if_neg (show ¬(jsTrim ds = "" ∨ jsTrim ms = "" ∨ jsTrim ys = "") by tauto),
    hpd, hpm, hpy]
  dsimp only
  rw [if_neg hr]
  rw [if_neg (show ¬(dayOf (jsMakeDay y (m - 1) d) ≠ d ∨
    monthOf (jsMakeDay y (m - 1) d) - 1 ≠ m - 1) by tauto)]

/-- Counterexample to C2 as stated: with today = 20737 (which is
2026-10-11), the client-side validator accepts today's own triple
(11, 10, 2026) — its check `dateObj < today` rejects only strictly
past dates — so the claim that both validators reject today's date
with the must-be-in-the-future category fails for the client. -/
theorem c2_counterexample :
    yearOf 20737 = 2026 ∧ monthOf 20737 = 10 ∧ dayOf 20737 = 11 ∧
    clientDateCheck "11" "10" "2026" 20737 = [] := by
  refine ⟨by decide, by decide, by decide, by decide⟩

/-- Claim C2 (amended): for every triple denoting today's calendar date
(with a sane year ≥ 2020), the server-side validator rejects it with
"Due date must be in the future" and accepts the triple denoting the
next calendar day; the client-side validator instead accepts today's
triple (its past check is strict) and rejects only strictly earlier
dates, with the differently worded "Due date cannot be in the past". -/
theorem c2_future_boundary (today : Int)
    (ds ms ys ds2 ms2 ys2 ds3 ms3 ys3 : String)
    (d m y d2 m2 y2 d3 m3 y3 : Int)
    (hy : yearOf today = y) (hm : monthOf today = m) (hd : dayOf today = d)
    (hy2 : yearOf (today + 1) = y2) (hm2 : monthOf (today + 1) = m2) (hd2 : dayOf (today + 1) = d2)
    (hy3 : yearOf (today - 1) = y3) (hm3 : monthOf (today - 1) = m3) (hd3 : dayOf (today - 1) = d3)
    (hyb : 2020 ≤ y) (hyb2 : 2020 ≤ y2) (hyb3 : 2020 ≤ y3)
    (hpd : parseIntJS ds = some d) (hpm : parseIntJS ms = some m) (hpy : parseIntJS ys = some y)
    (hpd2 : parseIntJS ds2 = some d2) (hpm2 : parseIntJS ms2 = some m2)
    (hpy2 : parseIntJS ys2 = some y2)
    (hctd : parseIntJS (jsTrim ds) = some d) (hctm : parseIntJS (jsTrim ms) = some m)
    (hcty : parseIntJS (jsTrim ys) = some y)
    (hctd3 : parseIntJS (jsTrim ds3) = some d3) (hctm3 : parseIntJS (jsTrim ms3) = some m3)
    (hcty3 : parseIntJS (jsTrim ys3) = some y3) :
    (serverDateCheck ds ms ys today).1 = [futureDateErr] ∧
    serverDateCheck ds2 ms2 ys2 today = ([], some (today + 1)) ∧
    clientDateCheck ds ms ys today = [] ∧
    clientDateCheck ds3 ms3 ys3 today = [pastDateErr] := by
  have hz := jsMakeDay_of_civil today y m d hy hm hd (by omega)
  have hz2 := jsMakeDay_of_civil (today + 1) y2 m2 d2 hy2 hm2 hd2 (by omega)
  have hz3 := jsMakeDay_of_civil (today - 1) y3 m3 d3 hy3 hm3 hd3 (by omega)
  obtain ⟨hdb1, hdb2⟩ := dayOf_bounds today
  obtain ⟨hmb1, hmb2⟩ := monthOf_bounds today
  obtain ⟨hdb1c, hdb2c⟩ := dayOf_bounds (today - 1)
  obtain ⟨hmb1c, hmb2c⟩ := monthOf_bounds (today - 1)
  rw [hd] at hdb1 hdb2
  rw [hm] at hmb1 hmb2
  rw [hd3] at hdb1c hdb2c
  rw [hm3] at hmb1c hmb2c
  refine ⟨?_, ?_, ?_, ?_⟩
  · rw [serverDateCheck_eval ds ms ys today d m y hpd hpm hpy
      (by rw [hz]; exact hd) (by rw [hz, hm])]
    rw [hz, if_pos le_rfl]
  · rw [serverDateCheck_eval ds2 ms2 ys2 today d2 m2 y2 hpd2 hpm2 hpy2
      (by rw [hz2]; exact hd2) (by rw [hz2, hm2])]
    rw [hz2, if_neg (by omega)]
  · rw [clientDateCheck_eval ds ms ys today d m y hctd hctm hcty
      (by omega) (by rw [hz]; exact hd) (by rw [hz, hm])]
    rw [hz, if_neg (by omega)]
  · rw [clientDateCheck_eval ds3 ms3 ys3 today d3 m3 y3 hctd3 hctm3 hcty3
      (by omega) (by rw [hz3]; exact hd3) (by rw [hz3, hm3])]
    rw [hz3, if_pos (by omega)]

/-- Witness for C2 at today = 20737 (2026-10-11), with the triples
(11,10,2026), (12,10,2026) and (10,10,2026). -/
theorem c2_witness :
    (serverDateCheck "11" "10" "2026" 20737).1 = [futureDateErr] ∧
    serverDateCheck "12" "10" "2026" 20737 = ([], some 20738) ∧
    clientDateCheck "11" "10" "2026" 20737 = [] ∧
    clientDateCheck "10" "10" "2026" 20737 = [pastDateErr] := by
  have h := c2_future_boundary 20737 "11" "10" "2026" "12" "10" "2026" "10" "10" "2026"
    11 10 2026 12 10 2026 10 10 2026
    (by decide) (by decide) (by decide) (by decide) (by decide) (by decide)
    (by decide) (by decide) (by decide) (by decide) (by decide) (by decide)
    (by decide) (by decide) (by decide) (by decide) (by decide) (by decide)
    (by decide) (by decide) (by decide) (by decide) (by decide) (by decide)
  exact ⟨h.1, h.2.1, h.2.2.1, h.2.2.2⟩

end TaskFrontend

namespace TaskFrontend

theorem server_invalid_of_mismatch (ds ms ys : String) (today d m y : Int)
    (hpd : parseIntJS ds = some d) (hpm : parseIntJS ms = some m) (hpy : parseIntJS ys = some y)
    (hmis : dayOf (jsMakeDay y (m - 1) d) ≠ d ∨ monthOf (jsMakeDay y (m - 1) d) - 1 ≠ m - 1) :
    (serverDateCheck ds ms ys today).1 = [invalidDateErr] := by
  have h1 := parseIntJS_ne_empty hpd
  have h2 := parseIntJS_ne_empty hpm
  have h3 := parseIntJS_ne_empty hpy
  unfold serverDateCheck
  rw [if_pos (Or.inl h1), if_neg (show ¬(ds = "" ∨ ms = "" ∨ ys = "") by tauto),
    hpd, hpm, hpy]
  dsimp only
  rw [if_pos hmis]

theorem client_invalid_of_range (ds ms ys : String) (today d m y : Int)
    (hpd : parseIntJS (jsTrim ds) = some d) (hpm : parseIntJS (jsTrim ms) = some m)
    (hpy : parseIntJS (jsTrim ys) = some y)
    (hr : d < 1 ∨ d > 31 ∨ m < 1 ∨ m > 12 ∨ y < 2020) :
    clientDateCheck ds ms ys today = [invalidDateErr] := by
  have h1 := parseIntJS_ne_empty hpd
  have h2 := parseIntJS_ne_empty hpm
  have h3 := parseIntJS_ne_empty hpy
  unfold clientDateCheck
  dsimp only
  rw [if_pos (Or.inl h1),
    if_neg (show ¬(jsTrim ds = "" ∨ jsTrim ms = "" ∨ jsTrim ys = "") by tauto),
    hpd, hpm, hpy]
  dsimp only
  rw [if_pos hr]

theorem client_invalid_of_mismatch (ds ms ys : String) (today d m y : Int)
    (hpd : parseIntJS (jsTrim ds) = some d) (hpm : parseIntJS (jsTrim ms) = some m)
    (hpy : parseIntJS (jsTrim ys) = some y)
    (hr : ¬(d < 1 ∨ d > 31 ∨ m < 1 ∨ m > 12 ∨ y < 2020))
    (hmis : dayOf (jsMakeDay y (m - 1) d) ≠ d ∨ monthOf (jsMakeDay y (m - 1) d) - 1 ≠ m - 1) :
    clientDateCheck ds ms ys today = [invalidDateErr] := by
  have h1 := parseIntJS_ne_empty hpd
  have h2 := parseIntJS_ne_empty hpm
  have h3 := parseIntJS_ne_empty hpy
  unfold clientDateCheck
  dsimp only
  rw [if_pos (Or.inl h1),
    if_neg (show ¬(jsTrim ds = "" ∨ jsTrim ms = "" ∨ jsTrim ys = "") by tauto),
    hpd, hpm, hpy]
  dsimp only
  rw [if_neg hr, if_pos hmis]

theorem rolloverCheck_int (r : Int) (h0 : 0 ≤ r) (h1 : r < 400) : rolloverCheck r = true := by
  have hall := rolloverCheck_range
  rw [List.all_eq_true] at hall
  have hmem : r.toNat ∈ List.range 400 := List.mem_range.mpr (by omega)
  have hc := hall _ hmem
  rwa [Int.toNat_of_nonneg h0] at hc

theorem rollover_months (w : Int) :
    monthOf (daysFromCivil w 2 1 + 29) = 3 ∧
    monthOf (daysFromCivil w 2 1 + 30) = 3 ∧
    monthOf (daysFromCivil w 4 1 + 30) = 5 := by
  have hcheck := rolloverCheck_int (w % 400) (by omega) (by omega)
  unfold rolloverCheck at hcheck
  simp only [Bool.and_eq_true, beq_iff_eq] at hcheck
  obtain ⟨⟨hc1, hc2⟩, hc3⟩ := hcheck
  have hw : w = w % 400 + 400 * (w / 400) := by omega
  have e2 : daysFromCivil w 2 1 = daysFromCivil (w % 400) 2 1 + 146097 * (w / 400) := by
    conv_lhs => rw [hw]
    exact daysFromCivil_add400 (w % 400) 2 1 (w / 400)
  have e4 : daysFromCivil w 4 1 = daysFromCivil (w % 400) 4 1 + 146097 * (w / 400) := by
    conv_lhs => rw [hw]
    exact daysFromCivil_add400 (w % 400) 4 1 (w / 400)
  refine ⟨?_, ?_, ?_⟩
  · rw [e2, show daysFromCivil (w % 400) 2 1 + 146097 * (w / 400) + 29 =
      daysFromCivil (w % 400) 2 1 + 29 + 146097 * (w / 400) from by ring,
      (civilFromDays_add146097 (daysFromCivil (w % 400) 2 1 + 29) (w / 400)).2.1]
    exact hc1
  · rw [e2, show daysFromCivil (w % 400) 2 1 + 146097 * (w / 400) + 30 =
      daysFromCivil (w % 400) 2 1 + 30 + 146097 * (w / 400) from by ring,
      (civilFromDays_add146097 (daysFromCivil (w % 400) 2 1 + 30) (w / 400)).2.1]
    exact hc2
  · rw [e4, show daysFromCivil (w % 400) 4 1 + 146097 * (w / 400) + 30 =
      daysFromCivil (w % 400) 4 1 + 30 + 146097 * (w / 400) from by ring,
      (civilFromDays_add146097 (daysFromCivil (w % 400) 4 1 + 30) (w / 400)).2.1]
    exact hc3

theorem feb30_mismatch (y : Int) :
    monthOf (jsMakeDay y (2 - 1) 30) - 1 ≠ (2 : Int) - 1 := by
  rw [jsMakeDay_eq y 2 30 (by norm_num) (by norm_num),
    daysFromCivil_day_linear (jsYearAdjust y) 2 30,
    show (30 : Int) - 1 = 29 from by norm_num,
    (rollover_months (jsYearAdjust y)).1]
  decide

theorem feb31_mismatch (y : Int) :
    monthOf (jsMakeDay y (2 - 1) 31) - 1 ≠ (2 : Int) - 1 := by
  rw [jsMakeDay_eq y 2 31 (by norm_num) (by norm_num),
    daysFromCivil_day_linear (jsYearAdjust y) 2 31,
    show (31 : Int) - 1 = 30 from by norm_num,
    (rollover_months (jsYearAdjust y)).2.1]
  decide

theorem apr31_mismatch (y : Int) :
    monthOf (jsMakeDay y (4 - 1) 31) - 1 ≠ (4 : Int) - 1 := by
  rw [jsMakeDay_eq y 4 31 (by norm_num) (by norm_num),
    daysFromCivil_day_linear (jsYearAdjust y) 4 31,
    show (31 : Int) - 1 = 30 from by norm_num,
    (rollover_months (jsYearAdjust y)).2.2]
  decide

end TaskFrontend

namespace TaskFrontend

/-- Counterexample to C4 as stated: the server has no minimum-year
bound.  For day="15", month="6", year="1990" (below the client's sane
bound 2020) the server classifies the date by the future check — "Due
date must be in the future" — not by the invalid-date category, while
the client does emit the invalid-date error for the same input. -/
theorem c4_counterexample :
    (serverDateCheck "15" "6" "1990" 20737).1 = [futureDateErr] ∧
    futureDateErr ≠ invalidDateErr ∧
    clientDateCheck "15" "6" "1990" 20737 = [invalidDateErr] := by
  refine ⟨by decide, by decide, by decide⟩

/-- Claim C4 (amended): a non-empty due-date triple with a component
that fails to parse is rejected with the distinct invalid-date error
"Please enter a valid due date" (anchored to the day field) by both
validators, and a parsed day outside 1..31 or month outside 1..12 is
likewise rejected by both; the minimum-year bound (year ≥ 2020) is
enforced only by the client-side validator — the server has no
minimum-year check. -/
theorem c4_invalid_components (ds ms ys : String) (today : Int) (d m y : Int) :
    ((jsTrim ds ≠ "" ∧ jsTrim ms ≠ "" ∧ jsTrim ys ≠ "") →
      (parseIntJS (jsTrim ds) = none ∨ parseIntJS (jsTrim ms) = none ∨
        parseIntJS (jsTrim ys) = none) →
      clientDateCheck ds ms ys today = [invalidDateErr]) ∧
    (parseIntJS (jsTrim ds) = some d → parseIntJS (jsTrim ms) = some m →
      parseIntJS (jsTrim ys) = some y →
      (d < 1 ∨ d > 31 ∨ m < 1 ∨ m > 12 ∨ y < 2020) →
      clientDateCheck ds ms ys today = [invalidDateErr]) ∧
    ((ds ≠ "" ∧ ms ≠ "" ∧ ys ≠ "") →
      (parseIntJS ds = none ∨ parseIntJS ms = none ∨ parseIntJS ys = none) →
      (serverDateCheck ds ms ys today).1 = [invalidDateErr]) ∧
    (parseIntJS ds = some d → parseIntJS ms = some m → parseIntJS ys = some y →
      (d < 1 ∨ d > 31 ∨ m < 1 ∨ m > 12) →
      (serverDateCheck ds ms ys today).1 = [invalidDateErr]) ∧
    invalidDateErr.href = "#due-date-day" := by
  refine ⟨fun hne hnan => ?_, fun hpd hpm hpy hr => ?_, fun hne hnan => ?_,
    fun hpd hpm hpy hr => ?_, rfl⟩
  · unfold clientDateCheck
    dsimp only
    rw [if_pos (Or.inl hne.1),
      if_neg (show ¬(jsTrim ds = "" ∨ jsTrim ms = "" ∨ jsTrim ys = "") by tauto)]
    cases h1 : parseIntJS (jsTrim ds) <;> cases h2 : parseIntJS (jsTrim ms) <;>
      cases h3 : parseIntJS (jsTrim ys) <;>
      (dsimp only
       all_goals
         first
         | rfl
         | (rcases hnan with h | h | h
            all_goals simp_all))
  · exact client_invalid_of_range ds ms ys today d m y hpd hpm hpy hr
  · unfold serverDateCheck
    rw [if_pos (Or.inl hne.1),
      if_neg (show ¬(ds = "" ∨ ms = "" ∨ ys = "") by tauto)]
    cases h1 : parseIntJS ds <;> cases h2 : parseIntJS ms <;>
      cases h3 : parseIntJS ys <;>
      (dsimp only
       all_goals
         first
         | rfl
         | (rcases hnan with h | h | h
            all_goals simp_all))
  · obtain ⟨hb1, hb2⟩ := dayOf_bounds (jsMakeDay y (m - 1) d)
    obtain ⟨hb3, hb4⟩ := monthOf_bounds (jsMakeDay y (m - 1) d)
    refine server_invalid_of_mismatch ds ms ys today d m y hpd hpm hpy ?_
    generalize hD : dayOf (jsMakeDay y (m - 1) d) = D at hb1 hb2
    generalize hM : monthOf (jsMakeDay y (m - 1) d) = M at hb3 hb4
    omega

/-- Witness for C4 at the concrete inputs (40,5,2026), ("ab",5,2026)
and (40,13,2026). -/
theorem c4_witness :
    clientDateCheck "40" "5" "2026" 0 = [invalidDateErr] ∧
    clientDateCheck "ab" "5" "2026" 0 = [invalidDateErr] ∧
    (serverDateCheck "ab" "5" "2026" 0).1 = [invalidDateErr] ∧
    (serverDateCheck "40" "13" "2026" 0).1 = [invalidDateErr] := by
  refine ⟨(c4_invalid_components "40" "5" "2026" 0 40 5 2026).2.1
      (by decide) (by decide) (by decide) (by decide),
    (c4_invalid_components "ab" "5" "2026" 0 0 5 2026).1
      (by refine ⟨by decide, by decide, by decide⟩) (by left; decide),
    (c4_invalid_components "ab" "5" "2026" 0 0 5 2026).2.2.1
      (by refine ⟨by decide, by decide, by decide⟩) (by left; decide),
    (c4_invalid_components "40" "13" "2026" 0 40 13 2026).2.2.2.1
      (by decide) (by decide) (by decide) (by decide)⟩

/-- Claim C5: for every year (any string parsing to any integer), the
triples February 30, February 31 and April 31 are rejected with the
invalid-date category by both the server-side and the client-side
validator, and more generally every parsed triple whose `Date`
construction does not round-trip to the same day and month is rejected
by the server with the invalid-date category — no silent date-rollover
normalization is accepted. -/
theorem c5_rollover_rejected (ys ds ms : String) (y today d m : Int)
    (hp : parseIntJS ys = some y) (hpt : parseIntJS (jsTrim ys) = some y)
    (hgd : parseIntJS ds = some d) (hgm : parseIntJS ms = some m)
    (hgmis : dayOf (jsMakeDay y (m - 1) d) ≠ d ∨
      monthOf (jsMakeDay y (m - 1) d) - 1 ≠ m - 1) :
    (serverDateCheck "30" "2" ys today).1 = [invalidDateErr] ∧
    (serverDateCheck "31" "2" ys today).1 = [invalidDateErr] ∧
    (serverDateCheck "31" "4" ys today).1 = [invalidDateErr] ∧
    clientDateCheck "30" "2" ys today = [invalidDateErr] ∧
    clientDateCheck "31" "2" ys today = [invalidDateErr] ∧
    clientDateCheck "31" "4" ys today = [invalidDateErr] ∧
    (serverDateCheck ds ms ys today).1 = [invalidDateErr] := by
  refine ⟨server_invalid_of_mismatch "30" "2" ys today 30 2 y
      (by decide) (by decide) hp (Or.inr (feb30_mismatch y)),
    server_invalid_of_mismatch "31" "2" ys today 31 2 y
      (by decide) (by decide) hp (Or.inr (feb31_mismatch y)),
    server_invalid_of_mismatch "31" "4" ys today 31 4 y
      (by decide) (by decide) hp (Or.inr (apr31_mismatch y)),
    ?_, ?_, ?_,
    server_invalid_of_mismatch ds ms ys today d m y hgd hgm hp hgmis⟩
  · by_cases hy : y < 2020
    · exact client_invalid_of_range "30" "2" ys today 30 2 y (by decide) (by decide) hpt
        (by tauto)
    · exact client_invalid_of_mismatch "30" "2" ys today 30 2 y (by decide) (by decide) hpt
        (by omega) (Or.inr (feb30_mismatch y))
  · by_cases hy : y < 2020
    · exact client_invalid_of_range "31" "2" ys today 31 2 y (by decide) (by decide) hpt
        (by tauto)
    · exact client_invalid_of_mismatch "31" "2" ys today 31 2 y (by decide) (by decide) hpt
        (by omega) (Or.inr (feb31_mismatch y))
  · by_cases hy : y < 2020
    · exact client_invalid_of_range "31" "4" ys today 31 4 y (by decide) (by decide) hpt
        (by tauto)
    · exact client_invalid_of_mismatch "31" "4" ys today 31 4 y (by decide) (by decide) hpt
        (by omega) (Or.inr (apr31_mismatch y))

/-- Witness for C5 at year 2025 (February 30 on the server, April 31 on
the client). -/
theorem c5_witness :
    (serverDateCheck "30" "2" "2025" 0).1 = [invalidDateErr] ∧
    clientDateCheck "31" "4" "2025" 0 = [invalidDateErr] :=
  ⟨(c5_rollover_rejected "2025" "30" "2" 2025 0 30 2 (by decide) (by decide)
      (by decide) (by decide) (by right; decide)).1,
   (c5_rollover_rejected "2025" "30" "2" 2025 0 30 2 (by decide) (by decide)
      (by decide) (by decide) (by right; decide)).2.2.2.2.2.1⟩

end TaskFrontend

namespace TaskFrontend

/-- Counterexample to C8 as stated: on the edit path, when validation
fails and both attempts to re-fetch the task also fail, the handler
responds with the generic error view whose data bag carries no
formData — the user's original field values are lost on this error
path, contradicting the claim that every error path re-renders the
originating form with the values echoed. -/
theorem c8_counterexample :
    (serverValidateEdit ⟨"", "Some description", "TODO", "", "", ""⟩ 0).1 ≠ [] ∧
    editTaskHandler "1" ⟨"", "Some description", "TODO", "", "", ""⟩ 0
        UpstreamResult.err (UpstreamResult.ok ()) UpstreamResult.err =
      HandlerResponse.render "error"
        { errors := [], formData := none, errorMsg := some "Failed to update task",
          task := none } := by
  refine ⟨by decide, by decide⟩

/-- Claim C8 (amended): every error path of the create handler
(validation failure or upstream write failure) re-renders the create
form with the submitted input echoed verbatim as formData, and a create
redirect happens only on full success; every error path of the edit
handler re-renders the edit form with the input echoed whenever the
task re-fetch succeeds, and an edit redirect happens only on full
success — but when the re-fetch itself fails the edit handler falls
back to the generic error view (still a render, never a redirect)
whose bag carries no formData. -/
theorem c8_error_rerender :
    (∀ (input : TaskFormInput) (today : Int) (post : UpstreamResult Unit),
      ((serverValidateCreate input today).1 ≠ [] ∨ post = UpstreamResult.err) →
      ∃ bag, createTaskHandler input today post = HandlerResponse.render "tasks/create" bag ∧
        bag.formData = some input) ∧
    (∀ (input : TaskFormInput) (today : Int) (post : UpstreamResult Unit) (p : String),
      createTaskHandler input today post = HandlerResponse.redirect p →
      (serverValidateCreate input today).1 = [] ∧ post = UpstreamResult.ok ()) ∧
    (∀ (id : String) (input : TaskFormInput) (today : Int) (f1 : UpstreamResult Task)
        (put : UpstreamResult Unit) (f2 : UpstreamResult Task),
      ((serverValidateEdit input today).1 ≠ [] ∨ put = UpstreamResult.err) →
      ((∃ bag, editTaskHandler id input today f1 put f2 =
            HandlerResponse.render "tasks/edit" bag ∧ bag.formData = some input) ∨
        (f2 = UpstreamResult.err ∧
          editTaskHandler id input today f1 put f2 =
            HandlerResponse.render "error"
              { errors := [], formData := none,
                errorMsg := some "Failed to update task", task := none }))) ∧
    (∀ (id : String) (input : TaskFormInput) (today : Int) (f1 : UpstreamResult Task)
        (put : UpstreamResult Unit) (t : Task),
      ((serverValidateEdit input today).1 ≠ [] ∨ put = UpstreamResult.err) →
      ∃ bag, editTaskHandler id input today f1 put (UpstreamResult.ok t) =
          HandlerResponse.render "tasks/edit" bag ∧ bag.formData = some input) ∧
    (∀ (id : String) (input : TaskFormInput) (today : Int) (f1 : UpstreamResult Task)
        (put : UpstreamResult Unit) (f2 : UpstreamResult Task) (p : String),
      editTaskHandler id input today f1 put f2 = HandlerResponse.redirect p →
      (serverValidateEdit input today).1 = [] ∧ put = UpstreamResult.ok ()) := by
  refine ⟨?_, ?_, ?_, ?_, ?_⟩
  · intro input today post h
    unfold createTaskHandler
    dsimp only
    by_cases he : (serverValidateCreate input today).1 = []
    · rcases h with h | h
      · exact absurd he h
      · subst h
        rw [if_neg (by simp [he])]
        exact ⟨_, rfl, rfl⟩
    · rw [if_pos he]
      exact ⟨_, rfl, rfl⟩
  · intro input today post p h
    unfold createTaskHandler at h
    dsimp only at h
    by_cases he : (serverValidateCreate input today).1 = []
    · rw [if_neg (by simp [he])] at h
      cases post with
      | ok u => exact ⟨he, rfl⟩
      | err => exact absurd h (by simp)
    · rw [if_pos he] at h
      exact absurd h (by simp)
  · intro id input today f1 put f2 h
    unfold editTaskHandler
    dsimp only
    by_cases he : (serverValidateEdit input today).1 = []
    · rcases h with h | h
      · exact absurd he h
      · subst h
        rw [if_neg (by simp [he])]
        cases f2 with
        | ok t => left; exact ⟨_, rfl, rfl⟩
        | err => right; exact ⟨rfl, rfl⟩
    · rw [if_pos he]
      cases f1 with
      | ok t => left; exact ⟨_, rfl, rfl⟩
      | err =>
        cases f2 with
        | ok t => left; exact ⟨_, rfl, rfl⟩
        | err => right; exact ⟨rfl, rfl⟩
  · intro id input today f1 put t h
    unfold editTaskHandler
    dsimp only
    by_cases he : (serverValidateEdit input today).1 = []
    · rcases h with h | h
      · exact absurd he h
      · subst h
        rw [if_neg (by simp [he])]
        exact ⟨_, rfl, rfl⟩
    · rw [if_pos he]
      cases f1 with
      | ok t2 => exact ⟨_, rfl, rfl⟩
      | err => exact ⟨_, rfl, rfl⟩
  · intro id input today f1 put f2 p h
    unfold editTaskHandler at h
    dsimp only at h
    by_cases he : (serverValidateEdit input today).1 = []
    · rw [if_neg (by simp [he])] at h
      cases put with
      | ok u => exact ⟨he, rfl⟩
      | err =>
        cases f2 with
        | ok t => exact absurd h (by simp)
        | err => exact absurd h (by simp)
    · rw [if_pos he] at h
      cases f1 with
      | ok t => exact absurd h (by simp)
      | err =>
        cases f2 with
        | ok t => exact absurd h (by simp)
        | err => exact absurd h (by simp)

/-- Witness for C8: a create submission with an empty title and an edit
submission with an empty title whose in-catch re-fetch succeeds. -/
theorem c8_witness :
    (∃ bag, createTaskHandler ⟨"", "Some description", "TODO", "", "", ""⟩ 0
        (UpstreamResult.ok ()) = HandlerResponse.render "tasks/create" bag ∧
      bag.formData = some ⟨"", "Some description", "TODO", "", "", ""⟩) ∧
    (∃ bag, editTaskHandler "1" ⟨"", "Some description", "TODO", "", "", ""⟩ 0
        UpstreamResult.err (UpstreamResult.ok ())
        (UpstreamResult.ok ⟨"t", "d", "TODO", none⟩) =
        HandlerResponse.render "tasks/edit" bag ∧
      bag.formData = some ⟨"", "Some description", "TODO", "", "", ""⟩) :=
  ⟨c8_error_rerender.1 ⟨"", "Some description", "TODO", "", "", ""⟩ 0
      (UpstreamResult.ok ()) (Or.inl (by decide)),
   c8_error_rerender.2.2.2.1 "1" ⟨"", "Some description", "TODO", "", "", ""⟩ 0
      UpstreamResult.err (UpstreamResult.ok ()) ⟨"t", "d", "TODO", none⟩
      (Or.inl (by decide))⟩

end TaskFrontend

namespace TaskFrontend

/-- Claim C9: when the server-side due-date check accepts a submitted
(day, month, year) triple (with a sane year ≥ 100) and stores the
resulting day number as the task's dueDate, feeding that task through
formatSingleTask reproduces exactly the values the user entered: the
extracted day and month are their zero-padded decimal renderings and
the year its plain rendering. -/
theorem c9_date_roundtrip (ds ms ys : String) (d m y today z now : Int) (task : Task)
    (hpd : parseIntJS ds = some d) (hpm : parseIntJS ms = some m) (hpy : parseIntJS ys = some y)
    (hy : 100 ≤ y)
    (hacc : serverDateCheck ds ms ys today = ([], some z))
    (htask : task.dueDate = some z) :
    dayOf z = d ∧ monthOf z = m ∧ yearOf z = y ∧
    (formatSingleTask task now).dueDateDay = padStart2 (toString d) ∧
    (formatSingleTask task now).dueDateMonth = padStart2 (toString m) ∧
    (formatSingleTask task now).dueDateYear = toString y := by
  have h1 := parseIntJS_ne_empty hpd
  have h2 := parseIntJS_ne_empty hpm
  have h3 := parseIntJS_ne_empty hpy
  unfold serverDateCheck at hacc
  rw [if_pos (Or.inl h1), if_neg (show ¬(ds = "" ∨ ms = "" ∨ ys = "") by tauto),
    hpd, hpm, hpy] at hacc
  dsimp only at hacc
  by_cases hmis : dayOf (jsMakeDay y (m - 1) d) ≠ d ∨
      monthOf (jsMakeDay y (m - 1) d) - 1 ≠ m - 1
  · rw [if_pos hmis] at hacc
    exact absurd hacc (by simp [invalidDateErr])
  · rw [if_neg hmis] at hacc
    by_cases hle : jsMakeDay y (m - 1) d ≤ today
    · rw [if_pos hle] at hacc
      exact absurd hacc (by simp [futureDateErr])
    · rw [if_neg hle] at hacc
      simp only [Prod.mk.injEq, Option.some.injEq, true_and] at hacc
      push_neg at hmis
      obtain ⟨hdz, hmz⟩ := hmis
      obtain ⟨heq, hyear⟩ := jsMakeDay_roundtrip_year y m d (by omega) hdz hmz
      rw [hacc] at hdz hmz hyear
      obtain ⟨hb1, hb2⟩ := monthOf_bounds z
      have hmz2 : monthOf z = m := by
        generalize hM : monthOf z = M at hmz hb1 hb2
        omega
      refine ⟨hdz, hmz2, hyear, ?_, ?_, ?_⟩ <;>
        (unfold formatSingleTask
         dsimp only
         rw [htask]
         dsimp only)
      · rw [hdz]
      · rw [hmz2]
      · rw [hyear]

/-- Witness for C9 at the accepted triple (12, 10, 2026), stored as day
number 20738. -/
theorem c9_witness :
    dayOf 20738 = 12 ∧ monthOf 20738 = 10 ∧ yearOf 20738 = 2026 ∧
    (formatSingleTask ⟨"t", "d", "TODO", some 20738⟩ 0).dueDateDay = padStart2 (toString (12 : Int)) ∧
    (formatSingleTask ⟨"t", "d", "TODO", some 20738⟩ 0).dueDateMonth = padStart2 (toString (10 : Int)) ∧
    (formatSingleTask ⟨"t", "d", "TODO", some 20738⟩ 0).dueDateYear = toString (2026 : Int) :=
  c9_date_roundtrip "12" "10" "2026" 12 10 2026 20737 20738 0 ⟨"t", "d", "TODO", some 20738⟩
    (by decide) (by decide) (by decide) (by decide) (by decide) (by decide)

end TaskFrontend
